import Mathlib

/-!
Shallow embedding of the nonce-management and transaction-submission core of
the lighter-sdk TypeScript repository (`OptimisticNonceManager` and
`SignerClient`, embedded inline in `src/README.md` after the documentation
section).  JavaScript numbers that hold integers are modelled as `Int`; the
`Map<number, number>` nonce table is modelled as a total function `Int → Int`
with default value `0`, which is exact because every read in the source goes
through `this.nonces.get(k) || 0`.  Fallible calls return `Except` / `Option`;
the external collaborators (the native signer library and the exchange HTTP
API) are parameters of the functions that call them.
-/

/-- State of `OptimisticNonceManager` (source lines 586-664): the per-slot
nonce table, the owned slot range and the round-robin cursor. The
`apiClient` member is an external collaborator and does not appear in the
state; the API calls it serves are parameters of the operations below. -/
structure OptimisticNonceManager where
  accountIndex : Int
  startApiKey : Int
  endApiKey : Int
  currentApiKey : Int
  nonces : Int → Int

/-- `this.nonces.set(key, v)` on the nonce table. -/
def setNonce (m : Int → Int) (key v : Int) : Int → Int :=
  fun j => if j = key then v else m j

/-- Constructor `new OptimisticNonceManager(accountIndex, apiClient,
startApiKey, endApiKey)`: every slot starts at nonce `0` (the constructor
loop writes `0` explicitly, which coincides with the map default) and
`currentApiKey = startApiKey`. -/
def OptimisticNonceManager.new (accountIndex startApiKey endApiKey : Int) :
    OptimisticNonceManager :=
  { accountIndex := accountIndex
    startApiKey := startApiKey
    endApiKey := endApiKey
    currentApiKey := startApiKey
    nonces := fun _ => 0 }

/-- `next_nonce()` (source lines 626-638): read the current slot's counter as
the nonce to hand out, increment that counter, then advance the round-robin
cursor, wrapping past `endApiKey` back to `startApiKey`.  Returns the
`[apiKeyIndex, nonce]` pair together with the updated manager state. -/
def next_nonce (s : OptimisticNonceManager) : (Int × Int) × OptimisticNonceManager :=
  ((s.currentApiKey, s.nonces s.currentApiKey),
   { s with
     nonces := setNonce s.nonces s.currentApiKey (s.nonces s.currentApiKey + 1)
     currentApiKey :=
       if s.currentApiKey + 1 > s.endApiKey then s.startApiKey
       else s.currentApiKey + 1 })

/-- `acknowledge_failure(api_key_index)` (source lines 640-646): decrement the
slot's counter, but only when it is strictly positive. -/
def acknowledge_failure (s : OptimisticNonceManager) (api_key_index : Int) :
    OptimisticNonceManager :=
  if s.nonces api_key_index > 0 then
    { s with
      nonces := setNonce s.nonces api_key_index (s.nonces api_key_index - 1) }
  else s

/-- `hard_refresh_nonce(api_key_index)` (source lines 648-663): re-fetch the
slot's nonce from the exchange API and overwrite the local counter.
`serverNonce = some n` models a response carrying `nonce = n`;
`serverNonce = none` models a thrown request error or a response without a
`nonce` field, both of which leave the counter unchanged (the catch block
only logs a warning). -/
def hard_refresh_nonce (s : OptimisticNonceManager) (api_key_index : Int)
    (serverNonce : Option Int) : OptimisticNonceManager :=
  match serverNonce with
  | some n => { s with nonces := setNonce s.nonces api_key_index n }
  | none => s

/-- A sequence of `n` consecutive `next_nonce()` calls with no intervening
`acknowledge_failure` or `hard_refresh_nonce`; returns the list of issued
`(slot, nonce)` pairs and the final state. -/
def runNext : Nat → OptimisticNonceManager → List (Int × Int) × OptimisticNonceManager
  | 0, s => ([], s)
  | n + 1, s =>
    ((next_nonce s).1 :: (runNext n (next_nonce s).2).1,
     (runNext n (next_nonce s).2).2)

theorem next_nonce_nonces_le (s : OptimisticNonceManager) (k : Int) :
    s.nonces k ≤ ((next_nonce s).2).nonces k := by
  simp only [next_nonce, setNonce]
  by_cases h : k = s.currentApiKey
  · subst h; simp
  · simp [h]

theorem next_nonce_issued (s : OptimisticNonceManager) :
    (next_nonce s).1 = (s.currentApiKey, s.nonces s.currentApiKey)
    ∧ ((next_nonce s).2).nonces s.currentApiKey = s.nonces s.currentApiKey + 1 := by
  constructor
  · rfl
  · simp [next_nonce, setNonce]

theorem runNext_mem_gt (n : Nat) :
    ∀ (s : OptimisticNonceManager) (k v : Int), v < s.nonces k →
      ∀ p ∈ (runNext n s).1, p.1 = k → v < p.2 := by
  induction n with
  | zero =>
    intro s k v _ p hp
    simp [runNext] at hp
  | succ m ih =>
    intro s k v hv p hp hk
    rw [runNext] at hp
    rcases List.mem_cons.mp hp with h | h
    · subst h
      rw [(next_nonce_issued s).1] at hk ⊢
      dsimp only at hk ⊢
      rw [hk]
      exact hv
    · exact ih (next_nonce s).2 k v
        (lt_of_lt_of_le hv (next_nonce_nonces_le s k)) p h hk

theorem runNext_pairwise (n : Nat) (s : OptimisticNonceManager) :
    List.Pairwise (fun p q : Int × Int => p.1 = q.1 → p.2 < q.2) (runNext n s).1 := by
  induction n generalizing s with
  | zero => simp [runNext]
  | succ m ih =>
    rw [runNext]
    refine List.Pairwise.cons ?_ (ih (next_nonce s).2)
    intro q hq hq1
    rw [(next_nonce_issued s).1] at hq1 ⊢
    dsimp only at hq1 ⊢
    refine runNext_mem_gt m (next_nonce s).2 s.currentApiKey
      (s.nonces s.currentApiKey) ?_ q hq hq1.symm
    rw [(next_nonce_issued s).2]
    omega

/-- C1: in any sequence of `next_nonce()` calls on an `OptimisticNonceManager`
with no intervening `acknowledge_failure` or `hard_refresh_nonce`, two calls
that return the same slot (`api_key_index`) return distinct nonce values. -/
theorem claim_C1_no_double_issuance (n : Nat) (s : OptimisticNonceManager)
    (i j : Nat) (hij : i < j) (hj : j < (runNext n s).1.length)
    (hslot : ((runNext n s).1.get ⟨i, Nat.lt_trans hij hj⟩).1
      = ((runNext n s).1.get ⟨j, hj⟩).1) :
    ((runNext n s).1.get ⟨i, Nat.lt_trans hij hj⟩).2
      ≠ ((runNext n s).1.get ⟨j, hj⟩).2 := by
  have hp := runNext_pairwise n s
  have hlt := (List.pairwise_iff_get.mp hp)
    ⟨i, Nat.lt_trans hij hj⟩ ⟨j, hj⟩ hij hslot
  exact ne_of_lt hlt

/-- Witness for C1: a concrete run with slots `[3, 4]`; calls 0 and 2 both
return slot 3 and their nonces 0 and 1 differ. -/
theorem claim_C1_no_double_issuance_witness :
    ((runNext 3 (OptimisticNonceManager.new 1 3 4)).1.get ⟨0, by decide⟩).1
      = ((runNext 3 (OptimisticNonceManager.new 1 3 4)).1.get ⟨2, by decide⟩).1
    ∧ ((runNext 3 (OptimisticNonceManager.new 1 3 4)).1.get ⟨0, by decide⟩).2
      ≠ ((runNext 3 (OptimisticNonceManager.new 1 3 4)).1.get ⟨2, by decide⟩).2 :=
  ⟨by decide,
   claim_C1_no_double_issuance 3 (OptimisticNonceManager.new 1 3 4)
     0 2 (by decide) (by decide) (by decide)⟩

/-- C4: if the slot about to be served has counter `K ≥ 0`, `next_nonce()`
followed by `acknowledge_failure` on that slot restores the counter to `K`;
and `acknowledge_failure` on a slot whose counter is `0` leaves it at `0`. -/
theorem claim_C4_rollback (s t : OptimisticNonceManager) (K j : Int)
    (hK : 0 ≤ K) (hcur : s.nonces s.currentApiKey = K) (h0 : t.nonces j = 0) :
    (acknowledge_failure (next_nonce s).2 (next_nonce s).1.1).nonces
        ((next_nonce s).1.1) = K
    ∧ (acknowledge_failure t j).nonces j = 0 := by
  constructor
  · have h1 : (next_nonce s).1.1 = s.currentApiKey := rfl
    rw [h1]
    have h2 : ((next_nonce s).2).nonces s.currentApiKey = K + 1 := by
      rw [(next_nonce_issued s).2, hcur]
    simp only [acknowledge_failure, h2]
    have hpos : K + 1 > 0 := by omega
    simp [hpos, setNonce]
  · simp [acknowledge_failure, h0]

/-- Witness for C4 at a concrete manager: slots `[3, 5]`, all counters `0`. -/
theorem claim_C4_rollback_witness :
    (acknowledge_failure (next_nonce (OptimisticNonceManager.new 1 3 5)).2
        (next_nonce (OptimisticNonceManager.new 1 3 5)).1.1).nonces
        ((next_nonce (OptimisticNonceManager.new 1 3 5)).1.1) = 0
    ∧ (acknowledge_failure (OptimisticNonceManager.new 1 3 5) 4).nonces 4 = 0 :=
  claim_C4_rollback (OptimisticNonceManager.new 1 3 5)
    (OptimisticNonceManager.new 1 3 5) 0 4 (by decide) rfl rfl

/-- C5: after `next_nonce()` advanced the served slot's counter, a
`hard_refresh_nonce` on that slot whose server fetch succeeds with value `M`
sets the counter to exactly `M`, whatever the local value was. -/
theorem claim_C5_refresh_overrides (s : OptimisticNonceManager) (M : Int) :
    (hard_refresh_nonce (next_nonce s).2 ((next_nonce s).1.1)
        (some M)).nonces ((next_nonce s).1.1) = M := by
  simp [hard_refresh_nonce, setNonce]

/-- C6: with slots `[3, 5]`, six consecutive `next_nonce()` calls return slot
indices `3, 4, 5, 3, 4, 5`; in general each call hands out the current slot's
counter value, increments that counter by one, and advances the cursor with
wrap-around past `endApiKey` back to `startApiKey`. -/
theorem claim_C6_round_robin :
    ((runNext 6 (OptimisticNonceManager.new 410044 3 5)).1.map Prod.fst
      = [3, 4, 5, 3, 4, 5])
    ∧ (∀ s : OptimisticNonceManager,
        (next_nonce s).1.1 = s.currentApiKey
        ∧ (next_nonce s).1.2 = s.nonces s.currentApiKey
        ∧ ((next_nonce s).2).nonces s.currentApiKey = s.nonces s.currentApiKey + 1
        ∧ ((next_nonce s).2).currentApiKey
            = (if s.currentApiKey + 1 > s.endApiKey then s.startApiKey
               else s.currentApiKey + 1)) := by
  refine ⟨by decide, fun s => ⟨rfl, rfl, (next_nonce_issued s).2, rfl⟩⟩

/-- JavaScript `s.trim()`: strip whitespace from both ends, modelled over
the character sequence of the string. -/
def jsTrim (s : String) : String :=
  String.mk
    (((s.toList.dropWhile Char.isWhitespace).reverse.dropWhile
        Char.isWhitespace).reverse)

/-- Split a character sequence at every occurrence of `sep`, keeping empty
segments, exactly like JavaScript `split` with a one-character separator. -/
def splitOnChar (sep : Char) : List Char → List (List Char)
  | [] => [[]]
  | c :: rest =>
    if c = sep then [] :: splitOnChar sep rest
    else
      match splitOnChar sep rest with
      | [] => [[c]]
      | h :: t => (c :: h) :: t

/-- JavaScript `s.split("\n")`. -/
def jsSplitNewline (s : String) : List String :=
  (splitOnChar (Char.ofNat 10) s.toList).map String.mk

/-- `trim_exc(exception_body)` (source lines 715-717):
`exception_body.trim().split("\n").pop() || exception_body.trim()`.
`pop()` on the (never empty) split result yields the last line; when that
line is the empty string it is falsy and the whole trimmed body is used. -/
def trim_exc (exception_body : String) : String :=
  match (jsSplitNewline (jsTrim exception_body)).getLast? with
  | some last => if last = "" then jsTrim exception_body else last
  | none => jsTrim exception_body

/-- A JavaScript exception as observed by `process_api_key_and_nonce`:
`error.response?.status` (absent when there is no HTTP response),
`error.message`, and the `String(error)` rendering used when the message is
absent or empty. -/
structure JsError where
  responseStatus : Option Int
  message : Option String
  stringRepr : String

/-- `RespSendTx` as consumed by the submission wrapper; only its `code`
field is inspected (`ret.code !== CODE_OK`). -/
structure RespSendTx where
  code : Int
  tx_hash : String
deriving DecidableEq

/-- `CODE_OK` (source line 530). -/
def CODE_OK : Int := 200

/-- Outcome of awaiting `func(...args, actualNonce, actualApiKeyIndex)`
inside `process_api_key_and_nonce`: either the `[created_tx, ret, err]`
triple the per-operation closures resolve with, or a thrown exception. -/
inductive AttemptResult where
  | ok (created_tx : Option String) (ret : Option RespSendTx) (err : Option String)
  | thrown (e : JsError)

/-- What `process_api_key_and_nonce` itself does: rethrow (only for an api-key
switch error) or resolve with a `[created_tx, ret, err]` triple. -/
inductive ProcOutcome where
  | returned (created_tx : Option String) (ret : Option RespSendTx) (err : Option String)
  | thrown (msg : String)

/-- JavaScript truthiness of a nullable string: `null`/`undefined` and the
empty string are falsy. -/
def jsTruthyStr : Option String → Bool
  | some s => s != ""
  | none => false

/-- One-step search for `pat` as a contiguous run of `l`. -/
def containsAux (pat : List Char) : List Char → Bool
  | [] => pat.isEmpty
  | c :: rest => pat.isPrefixOf (c :: rest) || containsAux pat rest

/-- JavaScript `s.includes(pat)`: contiguous substring test. -/
def jsIncludes (s pat : String) : Bool :=
  containsAux pat.toList s.toList

/-- The catch-clause guard of `process_api_key_and_nonce` (source lines
1550-1553): `error.response?.status === 400 &&
error.message?.includes("invalid nonce")`. -/
def isInvalidNonceError (e : JsError) : Bool :=
  (e.responseStatus == some 400) &&
    (match e.message with
     | some m => jsIncludes m "invalid nonce"
     | none => false)

/-- `error.message || String(error)` (source lines 1557 and 1560). -/
def jsErrorText (e : JsError) : String :=
  match e.message with
  | some m => if m = "" then e.stringRepr else m
  | none => e.stringRepr

/-- The slot/nonce resolution at the top of `process_api_key_and_nonce`
(source lines 1528-1533): the nonce manager is consulted exactly when both
parameters are `-1`; otherwise the supplied values are used unchanged.
Returns `(actualApiKeyIndex, actualNonce, manager-after)`. -/
def resolve (nm : OptimisticNonceManager) (api_key_index nonce : Int) :
    Int × Int × OptimisticNonceManager :=
  if api_key_index = -1 ∧ nonce = -1 then
    ((next_nonce nm).1.1, (next_nonce nm).1.2, (next_nonce nm).2)
  else (api_key_index, nonce, nm)

/-- The success-path failure test (source line 1544):
`(ret === null && err) || (ret && ret.code !== CODE_OK)`. -/
def submissionFailed : Option RespSendTx → Option String → Bool
  | none, err => jsTruthyStr err
  | some r, _ => r.code != CODE_OK

/-- `process_api_key_and_nonce` (source lines 1522-1563).  External
collaborators are parameters: `switchApiKeyErr` models
`this.switch_api_key` (the native `SwitchAPIKey` result), `attempt` models
the awaited per-operation closure applied to `(actualNonce,
actualApiKeyIndex)`, and `serverNonce` models the exchange response a
`hard_refresh_nonce` would obtain.  The `instanceof OptimisticNonceManager`
guard on the refresh path is always true because `nonce_manager_factory`
only ever constructs an `OptimisticNonceManager` (source lines 666-685). -/
def process_api_key_and_nonce (nm : OptimisticNonceManager)
    (switchApiKeyErr : Int → Option String)
    (attempt : Int → Int → AttemptResult)
    (serverNonce : Option Int)
    (api_key_index nonce : Int) : ProcOutcome × OptimisticNonceManager :=
  let r := resolve nm api_key_index nonce
  match switchApiKeyErr r.1 with
  | some e => (.thrown ("error switching api key: " ++ e), r.2.2)
  | none =>
    match attempt r.2.1 r.1 with
    | .ok created_tx ret err =>
      if submissionFailed ret err then
        (.returned created_tx ret err, acknowledge_failure r.2.2 r.1)
      else
        (.returned created_tx ret err, r.2.2)
    | .thrown e =>
      if isInvalidNonceError e then
        (.returned none none (some (trim_exc (jsErrorText e))),
         hard_refresh_nonce r.2.2 r.1 serverNonce)
      else
        (.returned none none (some (trim_exc (jsErrorText e))),
         acknowledge_failure r.2.2 r.1)

/-- The `SignerClient` members read by `get_api_key_nonce`. -/
structure SignerClientState where
  api_key_index : Int
  end_api_key_index : Int
  nonce_manager : OptimisticNonceManager

/-- `get_api_key_nonce(api_key_index, nonce)` (source lines 1225-1237).
Throwing is modelled with `Except.error`; the returned pair comes with the
(possibly advanced) client state since both fall-through branches call
`this.nonce_manager.next_nonce()`. -/
def get_api_key_nonce (c : SignerClientState) (api_key_index nonce : Int) :
    Except String ((Int × Int) × SignerClientState) :=
  if api_key_index ≠ -1 ∧ nonce ≠ -1 then
    .ok ((api_key_index, nonce), c)
  else if nonce ≠ -1 then
    if c.api_key_index = c.end_api_key_index then
      .ok ((next_nonce c.nonce_manager).1,
           { c with nonce_manager := (next_nonce c.nonce_manager).2 })
    else
      .error "ambiguous api key"
  else
    .ok ((next_nonce c.nonce_manager).1,
         { c with nonce_manager := (next_nonce c.nonce_manager).2 })

/-- JavaScript `s.startsWith(pre)`. -/
def jsStartsWith (s pre : String) : Bool :=
  pre.toList.isPrefixOf s.toList

/-- JavaScript `s.slice(n)` for a non-negative start index. -/
def jsSlice (s : String) (n : Nat) : String :=
  String.mk (s.toList.drop n)

/-- `SignerClient.are_keys_equal` (source lines 2312-2322): compare two keys
after stripping an optional `0x` prefix from either side. -/
def are_keys_equal (key1 key2 : String) : Bool :=
  (if jsStartsWith key1 "0x" then jsSlice key1 2 else key1)
    == (if jsStartsWith key2 "0x" then jsSlice key2 2 else key2)

/-- The missing-key loop of `validate_api_private_keys` (source lines
1112-1120): `for (api_key = api_key_index + 1; api_key <
end_api_key_index; api_key++)`, throwing when a slot has no entry.  The
fuel argument is the number of iterations of that strictly-bounded loop. -/
def checkMissing (private_keys : List (Int × String)) : Int → Nat → Except String Unit
  | _, 0 => .ok ()
  | api_key, n + 1 =>
    if (private_keys.lookup api_key).isSome then
      checkMissing private_keys (api_key + 1) n
    else
      .error ("missing " ++ toString api_key ++ " private key!")

/-- `SignerClient.validate_api_private_keys` (source lines 1086-1121).  The
`private_keys` object is modelled as an association list with distinct
integer keys (`Object.keys(...).length` is its length, `k in private_keys`
is `lookup` success).  Accessing the initial slot of a full-size map that
lacks it would call `are_keys_equal(undefined, ...)` and raise a
`TypeError`, modelled by a distinct error string. -/
def validate_api_private_keys (api_key_index end_api_key_index : Int)
    (initial_private_key : String) (private_keys : List (Int × String)) :
    Except String Unit :=
  if (private_keys.length : Int) = end_api_key_index - api_key_index + 1 then
    match private_keys.lookup api_key_index with
    | some k =>
      if are_keys_equal k initial_private_key then .ok ()
      else .error "inconsistent private keys"
    | none => .error "TypeError: undefined private key"
  else if (private_keys.length : Int) ≠ end_api_key_index - api_key_index then
    .error "unexpected number of private keys"
  else
    checkMissing private_keys (api_key_index + 1)
      (end_api_key_index - api_key_index - 1).toNat

/-- The `(slot, nonce)` pair of a successful `get_api_key_nonce` call. -/
def resolvedPair : Except String ((Int × Int) × SignerClientState) → Option (Int × Int)
  | .ok (p, _) => some p
  | .error _ => none

/-- The client state after a successful `get_api_key_nonce` call. -/
def resolvedClient : Except String ((Int × Int) × SignerClientState) →
    Option SignerClientState
  | .ok (_, c) => some c
  | .error _ => none

/-- The thrown message of a failing `get_api_key_nonce` call. -/
def resolvedError : Except String ((Int × Int) × SignerClientState) → Option String
  | .ok _ => none
  | .error e => some e

/-- A client owning only slot `[3, 3]`, whose slot-3 counter is `8`. -/
def soleSlotClient : SignerClientState :=
  { api_key_index := 3
    end_api_key_index := 3
    nonce_manager :=
      { accountIndex := 410044
        startApiKey := 3
        endApiKey := 3
        currentApiKey := 3
        nonces := fun j => if j = 3 then 8 else 0 } }

/-- A client owning slots `[3, 5]`. -/
def multiSlotClient : SignerClientState :=
  { api_key_index := 3
    end_api_key_index := 5
    nonce_manager := OptimisticNonceManager.new 410044 3 5 }

/-- C2 (code behaviour at the claim's inputs): with slots `[3, 5]`,
`get_api_key_nonce(-1, 7)` throws "ambiguous api key" as claimed; but with
the sole slot `[3, 3]` and slot-3 counter `8`, `get_api_key_nonce(-1, 7)`
returns `(3, 8)` — the pair produced by `next_nonce()` — not `(3, 7)`, the
supplied nonce `7` is discarded, and the slot-3 counter is bumped to `9`. -/
theorem claim_C2_sole_slot_explicit_nonce_code_behaviour :
    resolvedError (get_api_key_nonce multiSlotClient (-1) 7) = some "ambiguous api key"
    ∧ resolvedPair (get_api_key_nonce soleSlotClient (-1) 7) = some (3, 8)
    ∧ resolvedPair (get_api_key_nonce soleSlotClient (-1) 7) ≠ some (3, 7)
    ∧ (resolvedClient (get_api_key_nonce soleSlotClient (-1) 7)).map
        (fun c => c.nonce_manager.nonces 3) = some 9 :=
  ⟨rfl, rfl, by decide, rfl⟩

/-- C3: whenever the awaited per-operation closure throws, the submission
wrapper returns (never rethrows) the triple `[null, null, trim_exc(message)]`
and reconciles the nonce manager by `hard_refresh_nonce` exactly when the
error is an HTTP-400 "invalid nonce" rejection, by `acknowledge_failure`
otherwise; and `trim_exc` yields the last line of the trimmed message. -/
theorem claim_C3_thrown_error_handling
    (nm : OptimisticNonceManager) (switchApiKeyErr : Int → Option String)
    (attempt : Int → Int → AttemptResult) (serverNonce : Option Int)
    (api_key_index nonce : Int) (e : JsError) (s lastLine : String)
    (hsw : switchApiKeyErr (resolve nm api_key_index nonce).1 = none)
    (hat : attempt (resolve nm api_key_index nonce).2.1
      (resolve nm api_key_index nonce).1 = .thrown e)
    (hlast : (jsSplitNewline (jsTrim s)).getLast? = some lastLine)
    (hne : lastLine ≠ "") :
    process_api_key_and_nonce nm switchApiKeyErr attempt serverNonce
        api_key_index nonce
      = (.returned none none (some (trim_exc (jsErrorText e))),
         if isInvalidNonceError e then
           hard_refresh_nonce (resolve nm api_key_index nonce).2.2
             (resolve nm api_key_index nonce).1 serverNonce
         else
           acknowledge_failure (resolve nm api_key_index nonce).2.2
             (resolve nm api_key_index nonce).1)
    ∧ trim_exc s = lastLine := by
  constructor
  · simp only [process_api_key_and_nonce]
    rw [hsw, hat]
    cases hinv : isInvalidNonceError e <;> simp [hinv]
  · unfold trim_exc
    rw [hlast]
    simp [hne]

/-- A manager used as concrete input by several witnesses. -/
def nmW : OptimisticNonceManager := OptimisticNonceManager.new 7 0 0

/-- A native-signer stub whose `SwitchAPIKey` always succeeds. -/
def noSwitchErr : Int → Option String := fun _ => none

/-- A concrete HTTP-400 rejection whose message mentions an invalid nonce. -/
def invalidNonceErr : JsError :=
  { responseStatus := some 400
    message := some "request failed\ninvalid nonce: got 5"
    stringRepr := "Error: request failed" }

/-- An attempt closure that always throws `invalidNonceErr`. -/
def throwingAttempt : Int → Int → AttemptResult :=
  fun _ _ => .thrown invalidNonceErr

/-- Witness for C3 at concrete inputs. -/
theorem claim_C3_thrown_error_handling_witness :
    process_api_key_and_nonce nmW noSwitchErr throwingAttempt (some 12) (-1) (-1)
      = (.returned none none (some (trim_exc (jsErrorText invalidNonceErr))),
         if isInvalidNonceError invalidNonceErr then
           hard_refresh_nonce (resolve nmW (-1) (-1)).2.2
             (resolve nmW (-1) (-1)).1 (some 12)
         else
           acknowledge_failure (resolve nmW (-1) (-1)).2.2
             (resolve nmW (-1) (-1)).1)
    ∧ trim_exc " a\nb \n last " = " last" :=
  claim_C3_thrown_error_handling nmW noSwitchErr throwingAttempt (some 12)
    (-1) (-1) invalidNonceErr " a\nb \n last " " last"
    rfl rfl (by decide) (by decide)

/-- C7 (code behaviour at the claim's inputs): for slot range `[0, 2]` with
primary key `"cc"`, a map with keys for slots 1 and 2 only passes; a full map
whose slot-0 entry mismatches the primary key throws "inconsistent private
keys"; key comparison ignores a `0x` prefix; BUT the size-2 map
`{0: "aa", 1: "bb"}` — which includes slot 0 with a non-primary key and
supplies no key for slot 2 — is accepted, because the missing-key loop stops
strictly before `end_api_key_index` and only full-size maps are compared
against the primary key. -/
theorem claim_C7_key_validation_code_behaviour :
    validate_api_private_keys 0 2 "cc" [(1, "k1"), (2, "k2")] = .ok ()
    ∧ validate_api_private_keys 0 2 "cc" [(0, "aa"), (1, "b1"), (2, "b2")]
        = .error "inconsistent private keys"
    ∧ are_keys_equal "0xcc" "cc" = true
    ∧ validate_api_private_keys 0 2 "cc" [(0, "aa"), (1, "bb")] = .ok ()
    ∧ validate_api_private_keys 0 2 "cc" [(1, "k1"), (5, "k5")] = .ok () :=
  ⟨rfl, rfl, by decide, rfl, rfl⟩

/-- C9: even when the caller supplies both `api_key_index ≥ 0` and
`nonce ≥ 0` explicitly (so the nonce manager issued nothing), a returned
triple that fails the success test — a signing/local error
(`ret === null && err`) or an exchange response with `code !== 200` — makes
`process_api_key_and_nonce` call `acknowledge_failure(api_key_index)` on the
manager. -/
theorem claim_C9_explicit_failure_decrements
    (nm : OptimisticNonceManager) (switchApiKeyErr : Int → Option String)
    (attempt : Int → Int → AttemptResult) (serverNonce : Option Int)
    (api_key_index nonce : Int) (created_tx : Option String)
    (ret : Option RespSendTx) (err : Option String)
    (hak : 0 ≤ api_key_index) (hn : 0 ≤ nonce)
    (hsw : switchApiKeyErr api_key_index = none)
    (hat : attempt nonce api_key_index = .ok created_tx ret err)
    (hfail : submissionFailed ret err = true) :
    process_api_key_and_nonce nm switchApiKeyErr attempt serverNonce
        api_key_index nonce
      = (.returned created_tx ret err, acknowledge_failure nm api_key_index) := by
  have hres : resolve nm api_key_index nonce = (api_key_index, nonce, nm) := by
    have h : ¬(api_key_index = -1 ∧ nonce = -1) := by omega
    simp [resolve, h]
  simp only [process_api_key_and_nonce, hres]
  rw [hsw, hat]
  simp [hfail]

/-- A failed attempt: local signing error, resolved as `[null, null, msg]`. -/
def failingAttempt : Int → Int → AttemptResult :=
  fun _ _ => .ok none none (some "signing failed")

/-- Witness for C9 at concrete inputs: explicit slot 0 and nonce 5. -/
theorem claim_C9_explicit_failure_decrements_witness :
    process_api_key_and_nonce nmW noSwitchErr failingAttempt none 0 5
      = (.returned none none (some "signing failed"),
         acknowledge_failure nmW 0) :=
  claim_C9_explicit_failure_decrements nmW noSwitchErr failingAttempt none
    0 5 none none (some "signing failed")
    (by decide) (by decide) rfl rfl (by decide)

/-- C10: `process_api_key_and_nonce` consults the nonce manager only when
both `api_key_index` and `nonce` are `-1`; any other combination passes both
values through unchanged, so an explicit nonce with `api_key_index = -1`
keeps `-1` as the slot — the native signer is asked to switch to API key
`-1` (and a switch error is rethrown), instead of inferring the sole slot
(`get_api_key_nonce` is not on this code path). -/
theorem claim_C10_explicit_nonce_no_inference
    (nm : OptimisticNonceManager) (switchApiKeyErr : Int → Option String)
    (attempt : Int → Int → AttemptResult) (serverNonce : Option Int)
    (nonce : Int) (e : String) (api_key_index n : Int)
    (hn : 0 ≤ nonce)
    (hsw : switchApiKeyErr (-1) = some e)
    (hother : ¬(api_key_index = -1 ∧ n = -1)) :
    resolve nm (-1) nonce = (-1, nonce, nm)
    ∧ process_api_key_and_nonce nm switchApiKeyErr attempt serverNonce (-1) nonce
        = (.thrown ("error switching api key: " ++ e), nm)
    ∧ resolve nm api_key_index n = (api_key_index, n, nm) := by
  have h1 : nonce ≠ -1 := by omega
  have hres : resolve nm (-1) nonce = (-1, nonce, nm) := by simp [resolve, h1]
  refine ⟨hres, ?_, by simp [resolve, hother]⟩
  simp only [process_api_key_and_nonce, hres]
  rw [hsw]

/-- A native-signer stub that rejects switching to API key `-1`. -/
def rejectNegSwitch : Int → Option String :=
  fun k => if k = -1 then some "invalid api key index" else none

/-- Witness for C10 at concrete inputs: explicit nonce 7, `api_key_index = -1`. -/
theorem claim_C10_explicit_nonce_no_inference_witness :
    resolve nmW (-1) 7 = (-1, 7, nmW)
    ∧ process_api_key_and_nonce nmW rejectNegSwitch throwingAttempt none (-1) 7
        = (.thrown ("error switching api key: " ++ "invalid api key index"), nmW)
    ∧ resolve nmW 2 9 = (2, 9, nmW) :=
  claim_C10_explicit_nonce_no_inference nmW rejectNegSwitch throwingAttempt none
    7 "invalid api key index" 2 9 (by decide) rfl (by decide)

/-- `SignerClient.ORDER_TYPE_MARKET` (source line 993). -/
def ORDER_TYPE_MARKET : Int := 1

/-- `SignerClient.ORDER_TIME_IN_FORCE_IMMEDIATE_OR_CANCEL` (source line 1000). -/
def ORDER_TIME_IN_FORCE_IMMEDIATE_OR_CANCEL : Int := 0

/-- `SignerClient.NIL_TRIGGER_PRICE` (source line 1008). -/
def NIL_TRIGGER_PRICE : Int := 0

/-- `SignerClient.DEFAULT_IOC_EXPIRY` (source line 1010). -/
def DEFAULT_IOC_EXPIRY : Int := 0

/-- `SignerClient.TX_TYPE_CREATE_ORDER` (source line 983). -/
def TX_TYPE_CREATE_ORDER : Int := 14

/-- The argument tuple handed to the native `SignCreateOrder` call inside
`sign_create_order` (source lines 1252-1264), in source order; the two
boolean flags arrive already converted to `1`/`0`. -/
structure CreateOrderArgs where
  market_index : Int
  client_order_index : Int
  base_amount : Int
  price : Int
  is_ask : Int
  order_type : Int
  time_in_force : Int
  reduce_only : Int
  trigger_price : Int
  order_expiry : Int
  nonce : Int
deriving DecidableEq

/-- The koffi struct returned by a native signing call: `result.str` and
`result.err`; `none` for the whole result models a null FFI return. -/
structure NativeSignResult where
  str : Option String
  err : Option String

/-- JavaScript `x || null` on a nullable string: the empty string collapses
to `null`. -/
def jsOrNull : Option String → Option String
  | some s => if s = "" then none else some s
  | none => none

/-- `extractStrOrErr` (source lines 719-729). -/
def extractStrOrErr (result : Option NativeSignResult) :
    Option String × Option String :=
  match result with
  | none => (none, some "Null result returned")
  | some r => (jsOrNull r.str, jsOrNull r.err)

/-- `sign_create_order` (source lines 1239-1268): convert the booleans,
invoke the native signer (a parameter here) and unpack its result. -/
def sign_create_order (native : CreateOrderArgs → Option NativeSignResult)
    (market_index client_order_index base_amount price : Int) (is_ask : Bool)
    (order_type time_in_force : Int) (reduce_only : Bool)
    (trigger_price order_expiry nonce : Int) : Option String × Option String :=
  extractStrOrErr (native
    { market_index := market_index
      client_order_index := client_order_index
      base_amount := base_amount
      price := price
      is_ask := if is_ask then 1 else 0
      order_type := order_type
      time_in_force := time_in_force
      reduce_only := if reduce_only then 1 else 0
      trigger_price := trigger_price
      order_expiry := order_expiry
      nonce := nonce })

/-- JavaScript's first-character test `tx_info[0] === "\x7b"` from `send_tx`
(`Char.ofNat 123` is the opening curly brace); on the empty string the
indexing yields `undefined`, which compares unequal. -/
def jsFirstCharIsBrace (s : String) : Bool :=
  match s.toList.head? with
  | some c => c == Char.ofNat 123
  | none => false

/-- `send_tx(tx_type, tx_info)` (source lines 2300-2306): throw the payload
itself when it does not look like JSON, otherwise submit it; `sendTxResp`
models `this.tx_api.sendTx` (resolved data or thrown transport error). -/
def send_tx (sendTxResp : Int → String → Except JsError RespSendTx)
    (tx_type : Int) (tx_info : String) : Except JsError RespSendTx :=
  if jsFirstCharIsBrace tx_info then sendTxResp tx_type tx_info
  else
    .error
      { responseStatus := none
        message := some tx_info
        stringRepr := "Error: " ++ tx_info }

/-- `CreateOrder.from_json` (source lines 691-695) is `JSON.parse`; the
parsed value is opaque to every claim, so the model carries the serialized
form itself. -/
def CreateOrder_from_json (s : String) : String := s

/-- The closure `create_order` passes to `process_api_key_and_nonce` (source
lines 1606-1634), as a function of the appended nonce argument `n` (the
appended api-key argument is unused by the closure, as in the source). -/
def create_order_attempt (native : CreateOrderArgs → Option NativeSignResult)
    (sendTxResp : Int → String → Except JsError RespSendTx)
    (market_index client_order_index base_amount price : Int) (is_ask : Bool)
    (order_type time_in_force : Int) (reduce_only : Bool)
    (trigger_price order_expiry : Int) (n : Int) : AttemptResult :=
  match sign_create_order native market_index client_order_index base_amount
      price is_ask order_type time_in_force reduce_only trigger_price
      order_expiry n with
  | (_, some error) => .ok none none (some error)
  | (none, none) => .ok none none (some "No transaction info")
  | (some txInfo, none) =>
    match send_tx sendTxResp TX_TYPE_CREATE_ORDER txInfo with
    | .error e => .thrown e
    | .ok api_response =>
      .ok (some (CreateOrder_from_json txInfo)) (some api_response) none

/-- `create_order` (source lines 1591-1638). -/
def create_order (nm : OptimisticNonceManager)
    (switchApiKeyErr : Int → Option String)
    (native : CreateOrderArgs → Option NativeSignResult)
    (sendTxResp : Int → String → Except JsError RespSendTx)
    (serverNonce : Option Int)
    (market_index client_order_index base_amount price : Int) (is_ask : Bool)
    (order_type time_in_force : Int) (reduce_only : Bool)
    (trigger_price order_expiry nonce api_key_index : Int) :
    ProcOutcome × OptimisticNonceManager :=
  process_api_key_and_nonce nm switchApiKeyErr
    (fun n _ak =>
      create_order_attempt native sendTxResp market_index client_order_index
        base_amount price is_ask order_type time_in_force reduce_only
        trigger_price order_expiry n)
    serverNonce api_key_index nonce

/-- `create_market_order` (source lines 1673-1697): delegate to
`create_order` fixing order type `MARKET`, time-in-force
`IMMEDIATE_OR_CANCEL`, trigger price `NIL_TRIGGER_PRICE` and expiry
`DEFAULT_IOC_EXPIRY`. -/
def create_market_order (nm : OptimisticNonceManager)
    (switchApiKeyErr : Int → Option String)
    (native : CreateOrderArgs → Option NativeSignResult)
    (sendTxResp : Int → String → Except JsError RespSendTx)
    (serverNonce : Option Int)
    (market_index client_order_index base_amount avg_execution_price : Int)
    (is_ask reduce_only : Bool) (nonce api_key_index : Int) :
    ProcOutcome × OptimisticNonceManager :=
  create_order nm switchApiKeyErr native sendTxResp serverNonce
    market_index client_order_index base_amount avg_execution_price is_ask
    ORDER_TYPE_MARKET ORDER_TIME_IN_FORCE_IMMEDIATE_OR_CANCEL reduce_only
    NIL_TRIGGER_PRICE DEFAULT_IOC_EXPIRY nonce api_key_index

/-- A JSON-looking, injective rendering of a signed create-order payload;
used to instantiate the abstract native signer with a recorder, so the
signed fields are observable in the pipeline's output. -/
def encodeCreateOrderTx (a : CreateOrderArgs) : String :=
  String.mk (Char.ofNat 123 ::
    ("MarketIndex:" ++ toString a.market_index
      ++ ",ClientOrderIndex:" ++ toString a.client_order_index
      ++ ",BaseAmount:" ++ toString a.base_amount
      ++ ",Price:" ++ toString a.price
      ++ ",IsAsk:" ++ toString a.is_ask
      ++ ",Type:" ++ toString a.order_type
      ++ ",TimeInForce:" ++ toString a.time_in_force
      ++ ",ReduceOnly:" ++ toString a.reduce_only
      ++ ",TriggerPrice:" ++ toString a.trigger_price
      ++ ",OrderExpiry:" ++ toString a.order_expiry
      ++ ",Nonce:" ++ toString a.nonce).toList)

/-- A native signer that always succeeds and records its arguments in the
serialized payload. -/
def nativeRecorder : CreateOrderArgs → Option NativeSignResult :=
  fun args => some { str := some (encodeCreateOrderTx args), err := none }

theorem encodeCreateOrderTx_ne_empty (a : CreateOrderArgs) :
    ¬ encodeCreateOrderTx a = "" := by
  intro h
  have hd := congrArg String.data h
  simp [encodeCreateOrderTx] at hd

theorem jsFirstCharIsBrace_encode (a : CreateOrderArgs) :
    jsFirstCharIsBrace (encodeCreateOrderTx a) = true := rfl

/-- C8: `create_market_order` with `nonce = -1` and `api_key_index = -1`
takes its `(slot, nonce)` pair from the manager's `next_nonce()` — the
native signer is switched to the manager's slot, the signed create-order
transaction carries `order_type = ORDER_TYPE_MARKET`,
`time_in_force = ORDER_TIME_IN_FORCE_IMMEDIATE_OR_CANCEL`,
`trigger_price = NIL_TRIGGER_PRICE` and
`order_expiry = DEFAULT_IOC_EXPIRY`, and its nonce field is exactly the
nonce `next_nonce()` returned (constant values `1, 0, 0, 0`). -/
theorem claim_C8_market_order_uses_manager_nonce
    (nm : OptimisticNonceManager) (switchApiKeyErr : Int → Option String)
    (sendTxResp : Int → String → Except JsError RespSendTx)
    (serverNonce : Option Int)
    (market_index client_order_index base_amount avg_execution_price : Int)
    (is_ask reduce_only : Bool) (r : RespSendTx)
    (hsw : switchApiKeyErr (next_nonce nm).1.1 = none)
    (hsend : sendTxResp TX_TYPE_CREATE_ORDER
      (encodeCreateOrderTx
        { market_index := market_index
          client_order_index := client_order_index
          base_amount := base_amount
          price := avg_execution_price
          is_ask := if is_ask then 1 else 0
          order_type := ORDER_TYPE_MARKET
          time_in_force := ORDER_TIME_IN_FORCE_IMMEDIATE_OR_CANCEL
          reduce_only := if reduce_only then 1 else 0
          trigger_price := NIL_TRIGGER_PRICE
          order_expiry := DEFAULT_IOC_EXPIRY
          nonce := (next_nonce nm).1.2 }) = .ok r)
    (hcode : r.code = CODE_OK) :
    create_market_order nm switchApiKeyErr nativeRecorder sendTxResp
        serverNonce market_index client_order_index base_amount
        avg_execution_price is_ask reduce_only (-1) (-1)
      = (.returned
          (some (CreateOrder_from_json (encodeCreateOrderTx
            { market_index := market_index
              client_order_index := client_order_index
              base_amount := base_amount
              price := avg_execution_price
              is_ask := if is_ask then 1 else 0
              order_type := ORDER_TYPE_MARKET
              time_in_force := ORDER_TIME_IN_FORCE_IMMEDIATE_OR_CANCEL
              reduce_only := if reduce_only then 1 else 0
              trigger_price := NIL_TRIGGER_PRICE
              order_expiry := DEFAULT_IOC_EXPIRY
              nonce := (next_nonce nm).1.2 })))
          (some r) none,
         (next_nonce nm).2)
    ∧ ORDER_TYPE_MARKET = 1
    ∧ ORDER_TIME_IN_FORCE_IMMEDIATE_OR_CANCEL = 0
    ∧ NIL_TRIGGER_PRICE = 0
    ∧ DEFAULT_IOC_EXPIRY = 0 := by
  refine ⟨?_, rfl, rfl, rfl, rfl⟩
  have hres : resolve nm (-1) (-1)
      = ((next_nonce nm).1.1, (next_nonce nm).1.2, (next_nonce nm).2) := by
    simp [resolve]
  have hne := encodeCreateOrderTx_ne_empty
    { market_index := market_index
      client_order_index := client_order_index
      base_amount := base_amount
      price := avg_execution_price
      is_ask := if is_ask then 1 else 0
      order_type := ORDER_TYPE_MARKET
      time_in_force := ORDER_TIME_IN_FORCE_IMMEDIATE_OR_CANCEL
      reduce_only := if reduce_only then 1 else 0
      trigger_price := NIL_TRIGGER_PRICE
      order_expiry := DEFAULT_IOC_EXPIRY
      nonce := (next_nonce nm).1.2 }
  unfold create_market_order create_order
  simp only [process_api_key_and_nonce, hres]
  rw [hsw]
  simp only [create_order_attempt, sign_create_order, extractStrOrErr,
    nativeRecorder, jsOrNull, if_neg hne, send_tx, jsFirstCharIsBrace_encode,
    if_true, hsend, hcode, submissionFailed]
  simp [CODE_OK]

/-- A manager owning only slot 3, whose slot-3 counter was fetched as `8`
(the spec's end-to-end scenario). -/
def marketNm : OptimisticNonceManager :=
  { accountIndex := 410044
    startApiKey := 3
    endApiKey := 3
    currentApiKey := 3
    nonces := fun j => if j = 3 then 8 else 0 }

/-- An exchange stub that accepts every submission with code 200. -/
def okSendTx : Int → String → Except JsError RespSendTx :=
  fun _ _ => .ok { code := 200, tx_hash := "0xabc" }

/-- Witness for C8 at the spec's end-to-end inputs: manager at `(3, 8)`,
`create_market_order(2, 0, 4, 341754, false, false, -1, -1)` signs a
market/IOC order with trigger price 0, expiry 0 and nonce 8. -/
theorem claim_C8_market_order_uses_manager_nonce_witness :
    create_market_order marketNm noSwitchErr nativeRecorder okSendTx none
        2 0 4 341754 false false (-1) (-1)
      = (.returned
          (some (CreateOrder_from_json (encodeCreateOrderTx
            { market_index := 2
              client_order_index := 0
              base_amount := 4
              price := 341754
              is_ask := 0
              order_type := 1
              time_in_force := 0
              reduce_only := 0
              trigger_price := 0
              order_expiry := 0
              nonce := 8 })))
          (some { code := 200, tx_hash := "0xabc" }) none,
         (next_nonce marketNm).2)
    ∧ ORDER_TYPE_MARKET = 1
    ∧ ORDER_TIME_IN_FORCE_IMMEDIATE_OR_CANCEL = 0
    ∧ NIL_TRIGGER_PRICE = 0
    ∧ DEFAULT_IOC_EXPIRY = 0 :=
  claim_C8_market_order_uses_manager_nonce marketNm noSwitchErr okSendTx none
    2 0 4 341754 false false { code := 200, tx_hash := "0xabc" } rfl rfl rfl
